import Mathlib

/-!
# AeroDB durability-core verification

Shallow embedding of the AeroDB admission, backpressure, dangerous-operation,
resource-limit, version-marker, CLI-init and backup subsystems, translated from
the Rust sources under `src/`, together with theorems settling the spec claims.

Conventions:
* Rust `f64` quantities that stay exact for the properties at hand (token
  counts, load percentages) are modelled as `ℚ`.
* Rust `u64`/`usize` counters are modelled as `Nat`; where the source relies on
  two's-complement wrapping (`fetch_sub`, wrapping add in release mode) the
  wrap is written out explicitly modulo `2 ^ 64`.
* Wall-clock reads (`Instant::now`, `SystemTime::elapsed`) are modelled by
  passing the elapsed duration (in seconds) explicitly to the function that
  performs the read.
-/

namespace AeroDB

/-! ## admission_control.rs -/

/-- `AdmissionControlConfig` from `src/admission_control.rs`. -/
structure AdmissionControlConfig where
  max_writes_per_second : Nat
  max_concurrent_queries : Nat
deriving DecidableEq, Repr

/-- `TokenBucket` from `src/admission_control.rs`.  The `last_update` instant
is not stored; instead `tryAcquire` receives the elapsed seconds since the
previous call explicitly. -/
structure TokenBucket where
  capacity : ℚ
  tokens : ℚ
  rate : ℚ
deriving DecidableEq, Repr

/-- `TokenBucket::new`. -/
def TokenBucket.new (rate capacity : ℚ) : TokenBucket :=
  { capacity := capacity, tokens := capacity, rate := rate }

/-- `TokenBucket::try_acquire`: replenish `rate * elapsed` tokens capped at
`capacity`, then decrement by `amount` if sufficient. -/
def TokenBucket.tryAcquire (b : TokenBucket) (elapsed amount : ℚ) :
    Bool × TokenBucket :=
  let tokens := min (b.tokens + b.rate * elapsed) b.capacity
  if amount ≤ tokens then
    (true, { b with tokens := tokens - amount })
  else
    (false, { b with tokens := tokens })

/-- Mutable state of `AdmissionController` (config, optional write bucket,
`active_queries : AtomicU64`). -/
structure AdmissionController where
  config : AdmissionControlConfig
  write_bucket : Option TokenBucket
  active_queries : Nat
deriving DecidableEq, Repr

/-- `AdmissionController::new`: a bucket with rate and capacity both equal to
`max_writes_per_second` when that is positive, otherwise no bucket. -/
def AdmissionController.new (config : AdmissionControlConfig) :
    AdmissionController :=
  let write_bucket :=
    if 0 < config.max_writes_per_second then
      some (TokenBucket.new (config.max_writes_per_second : ℚ)
        (config.max_writes_per_second : ℚ))
    else
      none
  { config := config, write_bucket := write_bucket, active_queries := 0 }

/-- `AdmissionController::try_acquire_write`. -/
def AdmissionController.tryAcquireWrite (c : AdmissionController)
    (elapsed : ℚ) : Bool × AdmissionController :=
  match c.write_bucket with
  | some b =>
      let r := b.tryAcquire elapsed 1
      (r.1, { c with write_bucket := some r.2 })
  | none => (true, c)

/-- Modulus of the `u64` atomics. -/
def U64 : Nat := 2 ^ 64

/-- `AdmissionController::try_acquire_query`: unlimited when the configured
maximum is `0`; otherwise optimistic `fetch_add` with rollback. -/
def AdmissionController.tryAcquireQuery (c : AdmissionController) :
    Bool × AdmissionController :=
  if c.config.max_concurrent_queries = 0 then
    (true, c)
  else
    let current := c.active_queries
    if c.config.max_concurrent_queries ≤ current then
      (false, c)
    else
      let prev := c.active_queries
      let c := { c with active_queries := (c.active_queries + 1) % U64 }
      if c.config.max_concurrent_queries ≤ prev then
        (false, { c with active_queries := (c.active_queries + (U64 - 1)) % U64 })
      else
        (true, c)

/-- `AdmissionController::release_query`: `fetch_sub(1)` (wrapping) only when a
query limit is configured. -/
def AdmissionController.releaseQuery (c : AdmissionController) :
    AdmissionController :=
  if 0 < c.config.max_concurrent_queries then
    { c with active_queries := (c.active_queries + (U64 - 1)) % U64 }
  else
    c

/-- Controller state after `n` calls to `try_acquire_write`, each with zero
wall-clock time elapsed since the previous call. -/
def AdmissionController.afterWrites (c : AdmissionController) :
    Nat → AdmissionController
  | 0 => c
  | n + 1 => ((c.afterWrites n).tryAcquireWrite 0).2

lemma afterWrites_bucket (r q : Nat) (hr : 0 < r) (n : Nat) :
    (AdmissionController.afterWrites
        (AdmissionController.new ⟨r, q⟩) n).write_bucket
      = some ⟨(r : ℚ), (r : ℚ) - (min n r : Nat), (r : ℚ)⟩ := by
  induction n with
  | zero =>
      simp [AdmissionController.afterWrites, AdmissionController.new,
        TokenBucket.new, hr]
  | succ n ih =>
      have hmin : (min n r : Nat) ≤ r := Nat.min_le_right n r
      simp only [AdmissionController.afterWrites,
        AdmissionController.tryAcquireWrite, ih]
      by_cases h : n < r
      · have h1 : min n r = n := Nat.min_eq_left (Nat.le_of_lt h)
        have h2 : min (n + 1) r = n + 1 := Nat.min_eq_left h
        have hle : (1 : ℚ) ≤ (r : ℚ) - (n : ℚ) := by
          have : (n : ℚ) + 1 ≤ (r : ℚ) := by exact_mod_cast h
          linarith
        have hcap : (r : ℚ) - (n : ℚ) ≤ (r : ℚ) := by
          have : (0 : ℚ) ≤ (n : ℚ) := by positivity
          linarith
        simp [TokenBucket.tryAcquire, h1, h2, min_eq_left hcap, hle]
        ring
  -- when all tokens are gone the bucket stays empty
      · have h1 : min n r = r := Nat.min_eq_right (Nat.le_of_not_lt h)
        have h2 : min (n + 1) r = r := by
          exact Nat.min_eq_right (Nat.le_succ_of_le (Nat.le_of_not_lt h))
        simp [TokenBucket.tryAcquire, h1, h2]
        norm_num

lemma tryAcquireWrite_afterWrites (r q : Nat) (hr : 0 < r) (n : Nat) :
    ((AdmissionController.afterWrites
        (AdmissionController.new ⟨r, q⟩) n).tryAcquireWrite 0).1
      = decide (n < r) := by
  rw [AdmissionController.tryAcquireWrite]
  rw [afterWrites_bucket r q hr n]
  by_cases h : n < r
  · have h1 : min n r = n := Nat.min_eq_left (Nat.le_of_lt h)
    have hle : (1 : ℚ) ≤ (r : ℚ) - (n : ℚ) := by
      have : (n : ℚ) + 1 ≤ (r : ℚ) := by exact_mod_cast h
      linarith
    simp [TokenBucket.tryAcquire, h1, hle, h]
  · have h1 : min n r = r := Nat.min_eq_right (Nat.le_of_not_lt h)
    simp [TokenBucket.tryAcquire, h1, h]
    norm_num

/-- **C3.** With `max_writes_per_second = r > 0`: the fresh controller holds a
full bucket of capacity `r`; with zero elapsed time between attempts the call
after `n` previous attempts succeeds exactly when `n < r`; and on any attempt
the replenishment is `rate * elapsed` capped at `capacity` (so the stored
token count never exceeds the capacity). -/
theorem admission_write_rate_limit (r q : Nat) (hr : 0 < r) (n : Nat) :
    (AdmissionController.new ⟨r, q⟩).write_bucket
        = some (TokenBucket.new (r : ℚ) (r : ℚ)) ∧
    ((AdmissionController.afterWrites
        (AdmissionController.new ⟨r, q⟩) n).tryAcquireWrite 0).1
        = decide (n < r) ∧
    (∀ b : TokenBucket, ∀ elapsed amount : ℚ, 0 ≤ amount →
        ((b.tryAcquire elapsed amount).2.tokens ≤ b.capacity ∧
          (¬ amount ≤ min (b.tokens + b.rate * elapsed) b.capacity →
            (b.tryAcquire elapsed amount).2.tokens
              = min (b.tokens + b.rate * elapsed) b.capacity))) := by
  refine ⟨by simp [AdmissionController.new, hr],
    tryAcquireWrite_afterWrites r q hr n, ?_⟩
  intro b elapsed amount ha
  constructor
  · have hcap := min_le_right (b.tokens + b.rate * elapsed) b.capacity
    simp only [TokenBucket.tryAcquire]
    split_ifs with h
    · simp only
      linarith
    · simp
  · intro h
    simp [TokenBucket.tryAcquire, h]

/-- Witness for `admission_write_rate_limit` at `r = 10`, `n = 3`. -/
theorem admission_write_rate_limit_witness :
    (AdmissionController.new ⟨10, 5⟩).write_bucket
        = some (TokenBucket.new (10 : ℚ) (10 : ℚ)) ∧
    ((AdmissionController.afterWrites
        (AdmissionController.new ⟨10, 5⟩) 3).tryAcquireWrite 0).1
        = decide (3 < 10) ∧
    (∀ b : TokenBucket, ∀ elapsed amount : ℚ, 0 ≤ amount →
        ((b.tryAcquire elapsed amount).2.tokens ≤ b.capacity ∧
          (¬ amount ≤ min (b.tokens + b.rate * elapsed) b.capacity →
            (b.tryAcquire elapsed amount).2.tokens
              = min (b.tokens + b.rate * elapsed) b.capacity))) :=
  admission_write_rate_limit 10 5 (by decide) 3

/-- **C9.** With `max_concurrent_queries = 0` query admission is unlimited:
`try_acquire_query` always answers `true` and leaves the whole state (in
particular the active-query counter) unchanged, and `release_query` is the
identity on the state. -/
theorem query_admission_unlimited_when_zero (c : AdmissionController)
    (h : c.config.max_concurrent_queries = 0) :
    c.tryAcquireQuery = (true, c) ∧ c.releaseQuery = c := by
  constructor
  · simp [AdmissionController.tryAcquireQuery, h]
  · simp [AdmissionController.releaseQuery, h]

/-- Witness for `query_admission_unlimited_when_zero` at a state holding seven
active queries under config `{max_writes_per_second := 4,
max_concurrent_queries := 0}`. -/
theorem query_admission_unlimited_when_zero_witness :
    AdmissionController.tryAcquireQuery ⟨⟨4, 0⟩, none, 7⟩
        = (true, ⟨⟨4, 0⟩, none, 7⟩) ∧
      AdmissionController.releaseQuery ⟨⟨4, 0⟩, none, 7⟩ = ⟨⟨4, 0⟩, none, 7⟩ :=
  query_admission_unlimited_when_zero ⟨⟨4, 0⟩, none, 7⟩ rfl

/-! ## backpressure.rs -/

/-- `BackpressureConfig` from `src/backpressure.rs`. -/
structure BackpressureConfig where
  max_connections : Nat
  max_queue_depth : Nat
  max_ops_per_connection : Nat
  queue_timeout_ms : Nat
deriving DecidableEq, Repr

/-- `LoadStatus` from `src/backpressure.rs`. -/
inductive LoadStatus where
  | Normal
  | Warning
  | Critical
deriving DecidableEq, Repr

/-- `BackpressureManager::load_status`: the manager computes percentages for
its two counters (`current_connections` and `current_queue_depth`) only; the
per-connection operation counters live on the `ConnectionGuard`s and are not
consulted. -/
def BackpressureManager.loadStatus (config : BackpressureConfig)
    (currentConnections currentQueueDepth : Nat) : LoadStatus :=
  let connPercent : ℚ :=
    (currentConnections : ℚ) / (config.max_connections : ℚ) * 100
  let queuePercent : ℚ :=
    (currentQueueDepth : ℚ) / (config.max_queue_depth : ℚ) * 100
  let maxPercent := max connPercent queuePercent
  if 90 ≤ maxPercent then LoadStatus.Critical
  else if 75 ≤ maxPercent then LoadStatus.Warning
  else LoadStatus.Normal

/-- Modelled from the spec: load status "derived from the highest percentage
across counters" where the counters are the *three* of the spec sentence
(active connections, queued operations, operations-per-connection), each
against its own limit.  This follows the spec text, for comparison with
`BackpressureManager.loadStatus` above, which is translated from the code. -/
def loadStatusSpecThreeCounters (config : BackpressureConfig)
    (currentConnections currentQueueDepth currentOpsOnConnection : Nat) :
    LoadStatus :=
  let connPercent : ℚ :=
    (currentConnections : ℚ) / (config.max_connections : ℚ) * 100
  let queuePercent : ℚ :=
    (currentQueueDepth : ℚ) / (config.max_queue_depth : ℚ) * 100
  let opsPercent : ℚ :=
    (currentOpsOnConnection : ℚ) / (config.max_ops_per_connection : ℚ) * 100
  let maxPercent := max connPercent (max queuePercent opsPercent)
  if 90 ≤ maxPercent then LoadStatus.Critical
  else if 75 ≤ maxPercent then LoadStatus.Warning
  else LoadStatus.Normal

/-- **C4, counterexample.** With limits `{max_connections := 10,
max_queue_depth := 10, max_ops_per_connection := 10}`, zero connections and an
empty queue, but one connection guard running 10 operations (100 % of its
per-connection limit): the spec-worded three-counter status is `Critical`,
while the code returns `Normal` — `load_status` never consults the
operations-per-connection counter. -/
theorem load_status_three_counters_counterexample :
    BackpressureManager.loadStatus ⟨10, 10, 10, 30000⟩ 0 0 = LoadStatus.Normal ∧
      loadStatusSpecThreeCounters ⟨10, 10, 10, 30000⟩ 0 0 10
        = LoadStatus.Critical ∧
      BackpressureManager.loadStatus ⟨10, 10, 10, 30000⟩ 0 0
        ≠ loadStatusSpecThreeCounters ⟨10, 10, 10, 30000⟩ 0 0 10 := by
  have h1 : BackpressureManager.loadStatus ⟨10, 10, 10, 30000⟩ 0 0
      = LoadStatus.Normal := by
    norm_num [BackpressureManager.loadStatus, max_def]
  have h2 : loadStatusSpecThreeCounters ⟨10, 10, 10, 30000⟩ 0 0 10
      = LoadStatus.Critical := by
    norm_num [loadStatusSpecThreeCounters, max_def]
  refine ⟨h1, h2, ?_⟩
  rw [h1, h2]
  decide

lemma percent_ge_iff (limit current : Nat) (threshold : ℚ) (hl : 0 < limit) :
    threshold ≤ (current : ℚ) / (limit : ℚ) * 100 ↔
      threshold * limit ≤ 100 * current := by
  have hl' : (0 : ℚ) < (limit : ℚ) := by exact_mod_cast hl
  rw [div_mul_eq_mul_div, le_div_iff₀ hl']
  constructor <;> intro h <;> linarith

/-- **C4, amended.** `load_status` is derived from the highest usage
percentage across the manager's *two* counters — active connections against
`max_connections` and queued operations against `max_queue_depth`; the
operations-per-connection counters are not consulted.  It returns `Critical`
when that highest percentage is ≥ 90, `Warning` when it is ≥ 75 but < 90,
and `Normal` otherwise (limits assumed positive, as in the default
configuration, so that the `f64` divisions are finite). -/
theorem load_status_two_counter_thresholds (config : BackpressureConfig)
    (conns queued : Nat) (hc : 0 < config.max_connections)
    (hq : 0 < config.max_queue_depth) :
    (BackpressureManager.loadStatus config conns queued = LoadStatus.Critical ↔
        90 * config.max_connections ≤ 100 * conns ∨
        90 * config.max_queue_depth ≤ 100 * queued) ∧
    (BackpressureManager.loadStatus config conns queued = LoadStatus.Warning ↔
        (75 * config.max_connections ≤ 100 * conns ∨
          75 * config.max_queue_depth ≤ 100 * queued) ∧
        ¬ (90 * config.max_connections ≤ 100 * conns ∨
            90 * config.max_queue_depth ≤ 100 * queued)) ∧
    (BackpressureManager.loadStatus config conns queued = LoadStatus.Normal ↔
        ¬ (75 * config.max_connections ≤ 100 * conns ∨
            75 * config.max_queue_depth ≤ 100 * queued)) := by
  have h90 : (90 : ℚ) ≤ max ((conns : ℚ) / (config.max_connections : ℚ) * 100)
        ((queued : ℚ) / (config.max_queue_depth : ℚ) * 100) ↔
      90 * config.max_connections ≤ 100 * conns ∨
        90 * config.max_queue_depth ≤ 100 * queued := by
    rw [le_max_iff, percent_ge_iff _ _ _ hc,
      percent_ge_iff _ _ _ hq]
    constructor <;> intro h <;> rcases h with h | h
    · exact Or.inl (by exact_mod_cast h)
    · exact Or.inr (by exact_mod_cast h)
    · exact Or.inl (by exact_mod_cast h)
    · exact Or.inr (by exact_mod_cast h)
  have h75 : (75 : ℚ) ≤ max ((conns : ℚ) / (config.max_connections : ℚ) * 100)
        ((queued : ℚ) / (config.max_queue_depth : ℚ) * 100) ↔
      75 * config.max_connections ≤ 100 * conns ∨
        75 * config.max_queue_depth ≤ 100 * queued := by
    rw [le_max_iff, percent_ge_iff _ _ _ hc,
      percent_ge_iff _ _ _ hq]
    constructor <;> intro h <;> rcases h with h | h
    · exact Or.inl (by exact_mod_cast h)
    · exact Or.inr (by exact_mod_cast h)
    · exact Or.inl (by exact_mod_cast h)
    · exact Or.inr (by exact_mod_cast h)
  simp only [BackpressureManager.loadStatus]
  split_ifs with hA hB
  · refine ⟨?_, ?_, ?_⟩
    · simp [h90.mp hA]
    · simp only [show LoadStatus.Critical ≠ LoadStatus.Warning from by decide,
        false_iff]
      intro hcon
      exact hcon.2 (h90.mp hA)
    · simp only [show LoadStatus.Critical ≠ LoadStatus.Normal from by decide,
        false_iff]
      intro hcon
      exact hcon (h75.mp (le_trans (by norm_num) hA))
  · refine ⟨?_, ?_, ?_⟩
    · simp only [show LoadStatus.Warning ≠ LoadStatus.Critical from by decide,
        false_iff]
      intro hcon
      exact hA (h90.mpr hcon)
    · simp only [true_iff]
      refine ⟨h75.mp hB, fun hcon => hA (h90.mpr hcon)⟩
    · simp only [show LoadStatus.Warning ≠ LoadStatus.Normal from by decide,
        false_iff]
      intro hcon
      exact hcon (h75.mp hB)
  · refine ⟨?_, ?_, ?_⟩
    · simp only [show LoadStatus.Normal ≠ LoadStatus.Critical from by decide,
        false_iff]
      intro hcon
      exact hA (h90.mpr hcon)
    · simp only [show LoadStatus.Normal ≠ LoadStatus.Warning from by decide,
        false_iff]
      intro hcon
      exact hB (h75.mpr hcon.1)
    · simp only [true_iff]
      intro hcon
      exact hB (h75.mpr hcon)

/-- Witness for `load_status_two_counter_thresholds`: default limits
(1000 connections, 10000 queue depth), 950 connections, empty queue. -/
theorem load_status_two_counter_thresholds_witness :
    (BackpressureManager.loadStatus ⟨1000, 10000, 100, 30000⟩ 950 0
          = LoadStatus.Critical ↔
        90 * 1000 ≤ 100 * 950 ∨ 90 * 10000 ≤ 100 * 0) ∧
    (BackpressureManager.loadStatus ⟨1000, 10000, 100, 30000⟩ 950 0
          = LoadStatus.Warning ↔
        (75 * 1000 ≤ 100 * 950 ∨ 75 * 10000 ≤ 100 * 0) ∧
        ¬ (90 * 1000 ≤ 100 * 950 ∨ 90 * 10000 ≤ 100 * 0)) ∧
    (BackpressureManager.loadStatus ⟨1000, 10000, 100, 30000⟩ 950 0
          = LoadStatus.Normal ↔
        ¬ (75 * 1000 ≤ 100 * 950 ∨ 75 * 10000 ≤ 100 * 0)) :=
  load_status_two_counter_thresholds ⟨1000, 10000, 100, 30000⟩ 950 0
    (by decide) (by decide)

/-! ## dangerous_ops.rs

Rust `String`/`&str` values are embedded as `List Char`.  `str::trim` and
`str::to_lowercase` are Unicode-aware in Rust; `rustIsWhitespace` carries the
full Unicode `White_Space` table, and `rustCharToLower` the ASCII fragment of
the lowercase mapping (every confirmation phrase in the source is ASCII). -/

/-- Rust `char::is_whitespace` (the Unicode `White_Space` property). -/
def rustIsWhitespace (c : Char) : Bool :=
  (0x09 ≤ c.toNat && c.toNat ≤ 0x0D) || c.toNat = 0x20 || c.toNat = 0x85 ||
    c.toNat = 0xA0 || c.toNat = 0x1680 ||
    (0x2000 ≤ c.toNat && c.toNat ≤ 0x200A) || c.toNat = 0x2028 ||
    c.toNat = 0x2029 || c.toNat = 0x202F || c.toNat = 0x205F ||
    c.toNat = 0x3000

/-- ASCII fragment of Rust `char::to_lowercase`. -/
def rustCharToLower (c : Char) : Char :=
  if 0x41 ≤ c.toNat ∧ c.toNat ≤ 0x5A then Char.ofNat (c.toNat + 0x20) else c

/-- Rust `str::trim`. -/
def rustTrim (s : List Char) : List Char :=
  ((s.dropWhile rustIsWhitespace).reverse.dropWhile rustIsWhitespace).reverse

/-- Rust `str::to_lowercase`. -/
def rustToLowercase (s : List Char) : List Char := s.map rustCharToLower

/-- `DangerousOperation` from `src/dangerous_ops.rs`. -/
inductive DangerousOperation where
  | TruncateCollection
  | DropCollection
  | DeleteSchema
  | ForceFailover
  | ResetWal
  | RestoreBackup
  | CompactStorage
  | FactoryReset
deriving DecidableEq, Repr

/-- `DangerousOperation::requires_type_confirm`. -/
def DangerousOperation.requiresTypeConfirm : DangerousOperation → Bool
  | .FactoryReset => true
  | .ResetWal => true
  | .DropCollection => true
  | _ => false

/-- `DangerousOperation::confirm_phrase`. -/
def DangerousOperation.confirmPhrase (op : DangerousOperation)
    (resourceName : List Char) : List Char :=
  match op with
  | .FactoryReset => "delete everything".toList
  | .ResetWal => "reset wal".toList
  | .DropCollection => "drop ".toList ++ resourceName
  | _ => "confirm".toList

/-- `ConfirmationToken` from `src/dangerous_ops.rs`.  The `created_at`
`SystemTime` is not stored; the elapsed time since creation is passed to the
expiry checks (`.error ()` models `SystemTime::elapsed` failing because the
clock went backwards). -/
structure ConfirmationToken where
  operation : DangerousOperation
  resource : List Char
  user_id : List Char
  token : List Char
deriving DecidableEq, Repr

/-- `ConfirmationToken::is_expired_after`: elapsed strictly greater than the
duration, or a clock that went backwards, means expired. -/
def ConfirmationToken.isExpiredAfter (elapsed : Except Unit ℚ)
    (duration : ℚ) : Bool :=
  match elapsed with
  | .ok e => decide (duration < e)
  | .error _ => true

/-- `ConfirmationToken::is_expired` (default: 5 minutes = 300 s). -/
def ConfirmationToken.isExpired (elapsed : Except Unit ℚ) : Bool :=
  ConfirmationToken.isExpiredAfter elapsed 300

/-- `ConfirmationResult` from `src/dangerous_ops.rs`. -/
inductive ConfirmationResult where
  | Confirmed
  | Expired
  | InvalidToken
  | PhraseNotMatch (expected : List Char)
  | NotProvided (warning : List Char)
deriving DecidableEq, Repr

/-- `DangerousOperationGuard` from `src/dangerous_ops.rs`. -/
structure DangerousOperationGuard where
  operation : DangerousOperation
  resource : List Char
  user_id : List Char
  confirmed : Bool
deriving DecidableEq, Repr

/-- `DangerousOperationGuard::confirm`.  `elapsed` is the wall-clock duration
since the presented token was created. -/
def DangerousOperationGuard.confirm (g : DangerousOperationGuard)
    (token : ConfirmationToken) (elapsed : Except Unit ℚ) :
    ConfirmationResult × DangerousOperationGuard :=
  if ConfirmationToken.isExpired elapsed then
    (.Expired, g)
  else if token.operation ≠ g.operation ∨ token.resource ≠ g.resource then
    (.InvalidToken, g)
  else
    (.Confirmed, { g with confirmed := true })

/-- `DangerousOperationGuard::confirm_with_phrase`. -/
def DangerousOperationGuard.confirmWithPhrase (g : DangerousOperationGuard)
    (token : ConfirmationToken) (elapsed : Except Unit ℚ)
    (phrase : List Char) : ConfirmationResult × DangerousOperationGuard :=
  let r := g.confirm token elapsed
  if r.1 ≠ ConfirmationResult.Confirmed then
    r
  else
    let g := r.2
    if g.operation.requiresTypeConfirm then
      let expected := g.operation.confirmPhrase g.resource
      if rustToLowercase (rustTrim phrase) ≠ rustToLowercase expected then
        (.PhraseNotMatch expected, { g with confirmed := false })
      else
        (.Confirmed, g)
    else
      (.Confirmed, g)

/-- **C5.** For a guard whose operation requires a typed phrase: a token older
than 5 minutes yields `Expired`; an unexpired token for a different operation
or resource yields `InvalidToken`; a matching unexpired token with a wrong
phrase yields `PhraseNotMatch` and leaves the guard unconfirmed; a matching
token and phrase yield `Confirmed` and mark the guard confirmed.  Factory
reset is such an operation and its required phrase is `delete everything`. -/
theorem dangerous_confirmation_classification (g : DangerousOperationGuard)
    (token : ConfirmationToken) (e : ℚ) (phrase : List Char)
    (hreq : g.operation.requiresTypeConfirm = true) :
    (300 < e →
      (g.confirmWithPhrase token (.ok e) phrase).1
        = ConfirmationResult.Expired) ∧
    (e ≤ 300 → token.operation ≠ g.operation ∨ token.resource ≠ g.resource →
      (g.confirmWithPhrase token (.ok e) phrase).1
        = ConfirmationResult.InvalidToken) ∧
    (e ≤ 300 → token.operation = g.operation → token.resource = g.resource →
      rustToLowercase (rustTrim phrase)
          ≠ rustToLowercase (g.operation.confirmPhrase g.resource) →
      (g.confirmWithPhrase token (.ok e) phrase).1
          = ConfirmationResult.PhraseNotMatch
            (g.operation.confirmPhrase g.resource) ∧
        (g.confirmWithPhrase token (.ok e) phrase).2.confirmed = false) ∧
    (e ≤ 300 → token.operation = g.operation → token.resource = g.resource →
      rustToLowercase (rustTrim phrase)
          = rustToLowercase (g.operation.confirmPhrase g.resource) →
      (g.confirmWithPhrase token (.ok e) phrase).1
          = ConfirmationResult.Confirmed ∧
        (g.confirmWithPhrase token (.ok e) phrase).2.confirmed = true) ∧
    DangerousOperation.FactoryReset.requiresTypeConfirm = true ∧
    DangerousOperation.FactoryReset.confirmPhrase g.resource
      = "delete everything".toList := by
  refine ⟨?_, ?_, ?_, ?_, rfl, rfl⟩
  · intro he
    simp [DangerousOperationGuard.confirmWithPhrase,
      DangerousOperationGuard.confirm, ConfirmationToken.isExpired,
      ConfirmationToken.isExpiredAfter, he]
  · intro he hne
    have hnexp : ¬ (300 : ℚ) < e := not_lt.mpr he
    simp [DangerousOperationGuard.confirmWithPhrase,
      DangerousOperationGuard.confirm, ConfirmationToken.isExpired,
      ConfirmationToken.isExpiredAfter, hnexp, hne]
  · intro he hop hres hph
    have hnexp : ¬ (300 : ℚ) < e := not_lt.mpr he
    constructor <;>
      simp [DangerousOperationGuard.confirmWithPhrase,
        DangerousOperationGuard.confirm, ConfirmationToken.isExpired,
        ConfirmationToken.isExpiredAfter, hnexp, hop, hres, hreq, hph]
  · intro he hop hres hph
    have hnexp : ¬ (300 : ℚ) < e := not_lt.mpr he
    constructor <;>
      simp [DangerousOperationGuard.confirmWithPhrase,
        DangerousOperationGuard.confirm, ConfirmationToken.isExpired,
        ConfirmationToken.isExpiredAfter, hnexp, hop, hres, hreq, hph]

/-- Witness for `dangerous_confirmation_classification`: a factory-reset guard
over the whole instance, a matching token 10 s old, phrase `delete
everything`. -/
theorem dangerous_confirmation_classification_witness :
    (DangerousOperationGuard.confirmWithPhrase
        ⟨.FactoryReset, "db".toList, "admin".toList, false⟩
        ⟨.FactoryReset, "db".toList, "admin".toList, "t1".toList⟩
        (.ok 10) "delete everything".toList).1
      = ConfirmationResult.Confirmed :=
  ((dangerous_confirmation_classification
      ⟨.FactoryReset, "db".toList, "admin".toList, false⟩
      ⟨.FactoryReset, "db".toList, "admin".toList, "t1".toList⟩
      10 "delete everything".toList rfl).2.2.2.1
    (by norm_num) rfl rfl (by decide)).1

lemma confirmWithPhrase_valid_eq (g : DangerousOperationGuard)
    (token : ConfirmationToken) (e : ℚ) (phrase : List Char)
    (hnexp : ¬ (300 : ℚ) < e) (htok : token.operation = g.operation)
    (hres : token.resource = g.resource)
    (hreq : g.operation.requiresTypeConfirm = true) :
    g.confirmWithPhrase token (.ok e) phrase =
      if rustToLowercase (rustTrim phrase)
          = rustToLowercase (g.operation.confirmPhrase g.resource) then
        (ConfirmationResult.Confirmed, { g with confirmed := true })
      else
        (ConfirmationResult.PhraseNotMatch
            (g.operation.confirmPhrase g.resource),
          { g with confirmed := false }) := by
  simp only [DangerousOperationGuard.confirmWithPhrase,
    DangerousOperationGuard.confirm, ConfirmationToken.isExpired,
    ConfirmationToken.isExpiredAfter, htok, hres]
  simp [hnexp, hreq]

/-- **C10.** The typed phrase is not matched literally: with a valid,
unexpired factory-reset token, `confirm_with_phrase` accepts exactly the
phrases whose trim-then-lowercase normalisation equals `delete everything`
(itself the lowercased required phrase), and rejects every other phrase with
`PhraseNotMatch`. -/
theorem factory_reset_phrase_normalised (g : DangerousOperationGuard)
    (token : ConfirmationToken) (e : ℚ) (phrase : List Char)
    (hop : g.operation = DangerousOperation.FactoryReset)
    (htok : token.operation = g.operation) (hres : token.resource = g.resource)
    (he : e ≤ 300) :
    ((g.confirmWithPhrase token (.ok e) phrase).1
        = ConfirmationResult.Confirmed ↔
      rustToLowercase (rustTrim phrase) = "delete everything".toList) ∧
    (rustToLowercase (rustTrim phrase) ≠ "delete everything".toList →
      (g.confirmWithPhrase token (.ok e) phrase).1
        = ConfirmationResult.PhraseNotMatch "delete everything".toList) := by
  have hnexp : ¬ (300 : ℚ) < e := not_lt.mpr he
  have hlow : rustToLowercase ("delete everything".toList)
      = "delete everything".toList := by decide
  have hreq : g.operation.requiresTypeConfirm = true := by
    rw [hop]
    decide
  have hexp : g.operation.confirmPhrase g.resource
      = "delete everything".toList := by
    rw [hop]
    rfl
  rw [confirmWithPhrase_valid_eq g token e phrase hnexp htok hres hreq, hexp,
    hlow]
  constructor
  · constructor
    · intro hc
      by_contra hne
      rw [if_neg hne] at hc
      simp at hc
    · intro hc
      rw [if_pos hc]
  · intro hne
    rw [if_neg hne]

/-- Witness for `factory_reset_phrase_normalised`: the phrase
`"  DELETE EVERYTHING  "` (upper case, surrounded by spaces) is accepted for
factory reset. -/
theorem factory_reset_phrase_normalised_witness :
    (DangerousOperationGuard.confirmWithPhrase
        ⟨.FactoryReset, "db".toList, "admin".toList, false⟩
        ⟨.FactoryReset, "db".toList, "admin".toList, "t1".toList⟩
        (.ok 10) "  DELETE EVERYTHING  ".toList).1
      = ConfirmationResult.Confirmed :=
  ((factory_reset_phrase_normalised
      ⟨.FactoryReset, "db".toList, "admin".toList, false⟩
      ⟨.FactoryReset, "db".toList, "admin".toList, "t1".toList⟩
      10 "  DELETE EVERYTHING  ".toList rfl rfl rfl (by norm_num)).1).mpr
    (by decide)

/-! ## resource_limits/mod.rs and resource_limits/errors.rs -/

/-- `ResourceError` from `src/resource_limits/errors.rs` (numeric fields as
`Nat`). -/
inductive ResourceError where
  | DiskFull (available required : Nat)
  | MemoryExhausted (current requested limit : Nat)
  | FileDescriptorLimit (current limit : Nat)
  | ConnectionLimit (current limit : Nat)
  | ResultSetTooLarge (requested limit : Nat)
  | ReadOnlyMode
  | IoError (msg : String)
deriving DecidableEq, Repr

/-- `MemoryTracker` from `src/resource_limits/mod.rs`: an `AtomicU64`
allocation counter and a `u64` limit. -/
structure MemoryTracker where
  allocated : Nat
  limit : Nat
deriving DecidableEq, Repr

/-- `MemoryTracker::new`. -/
def MemoryTracker.new (limit : Nat) : MemoryTracker :=
  { allocated := 0, limit := limit }

/-- `MemoryTracker::try_allocate`: reject with `MemoryExhausted` when
`current + size` (u64 addition, wrapping in release builds) exceeds the
limit, otherwise `fetch_add(size)`. -/
def MemoryTracker.tryAllocate (t : MemoryTracker) (size : Nat) :
    Except ResourceError Unit × MemoryTracker :=
  let current := t.allocated
  if t.limit < (current + size) % U64 then
    (.error (.MemoryExhausted current size t.limit), t)
  else
    (.ok (), { t with allocated := (current + size) % U64 })

/-- `MemoryTracker::release`: `fetch_sub(size)` (wrapping u64
subtraction). -/
def MemoryTracker.release (t : MemoryTracker) (size : Nat) : MemoryTracker :=
  { t with allocated := (t.allocated + (U64 - size % U64)) % U64 }

/-- One call in a `MemoryTracker` usage history. -/
inductive MemEvent where
  | alloc (size : Nat)
  | release (size : Nat)
deriving DecidableEq, Repr

/-- Run a sequence of `try_allocate` / `release` calls (a rejected
`try_allocate` leaves the tracker unchanged, as in the source). -/
def MemoryTracker.run (t : MemoryTracker) : List MemEvent → MemoryTracker
  | [] => t
  | .alloc s :: rest => ((t.tryAllocate s).2).run rest
  | .release s :: rest => (t.release s).run rest

/-- The releases of the event list are matched: each `release` returns at
most what is currently accounted as allocated. -/
def MatchedReleases (t : MemoryTracker) : List MemEvent → Prop
  | [] => True
  | .alloc s :: rest => MatchedReleases ((t.tryAllocate s).2) rest
  | .release s :: rest => s ≤ t.allocated ∧ MatchedReleases (t.release s) rest

lemma release_allocated (t : MemoryTracker) (s : Nat) (hs : s ≤ t.allocated)
    (ht : t.allocated < U64) : (t.release s).allocated = t.allocated - s := by
  have hsU : s < U64 := lt_of_le_of_lt hs ht
  have hmod : s % U64 = s := Nat.mod_eq_of_lt hsU
  have hsplit : t.allocated + (U64 - s) = (t.allocated - s) + U64 := by
    omega
  rw [MemoryTracker.release]
  simp only [hmod, hsplit]
  rw [Nat.add_mod_right]
  exact Nat.mod_eq_of_lt (by omega)

lemma tryAllocate_le (t : MemoryTracker) (s : Nat) (h : t.allocated ≤ t.limit) :
    ((t.tryAllocate s).2).allocated ≤ t.limit := by
  rw [MemoryTracker.tryAllocate]
  split_ifs with hgt
  · exact h
  · simpa using Nat.le_of_not_lt hgt

lemma run_le_limit (t : MemoryTracker) (evs : List MemEvent)
    (hU : t.limit < U64) (h : t.allocated ≤ t.limit)
    (hm : MatchedReleases t evs) :
    (t.run evs).allocated ≤ t.limit ∧ (t.run evs).limit = t.limit := by
  induction evs generalizing t with
  | nil => exact ⟨h, rfl⟩
  | cons ev rest ih =>
      cases ev with
      | alloc s =>
          have hstep : ((t.tryAllocate s).2).allocated ≤ t.limit :=
            tryAllocate_le t s h
          have hlim : ((t.tryAllocate s).2).limit = t.limit := by
            rw [MemoryTracker.tryAllocate]
            split_ifs <;> rfl
          have hm' : MatchedReleases ((t.tryAllocate s).2) rest := hm
          have := ih ((t.tryAllocate s).2) (hlim ▸ hU) (hlim ▸ hstep) hm'
          exact ⟨by simpa [MemoryTracker.run, hlim] using this.1,
            by simpa [MemoryTracker.run, hlim] using this.2⟩
      | release s =>
          obtain ⟨hs, hm'⟩ := hm
          have hrel : (t.release s).allocated = t.allocated - s :=
            release_allocated t s hs (lt_of_le_of_lt h hU)
          have hlim : (t.release s).limit = t.limit := rfl
          have hle : (t.release s).allocated ≤ t.limit := by
            rw [hrel]
            omega
          have := ih (t.release s) hU hle hm'
          exact ⟨by simpa [MemoryTracker.run] using this.1,
            by simpa [MemoryTracker.run] using this.2⟩

/-- **C6.** With `max_memory_bytes = M` (a `u64`, so `M < 2^64`): starting
from a fresh tracker, after any sequence of `try_allocate` and matched
`release` calls the tracked allocated total never exceeds `M`; and any
`try_allocate(size)` whose new total would exceed the limit returns
`MemoryExhausted {current, requested, limit}` with the tracker unchanged. -/
theorem memory_tracker_never_exceeds_limit (M : Nat) (hU : M < U64)
    (evs : List MemEvent) (hm : MatchedReleases (MemoryTracker.new M) evs) :
    ((MemoryTracker.new M).run evs).allocated ≤ M ∧
    (∀ t : MemoryTracker, ∀ size : Nat,
      t.limit < (t.allocated + size) % U64 →
      t.tryAllocate size
        = (.error (.MemoryExhausted t.allocated size t.limit), t)) := by
  constructor
  · exact (run_le_limit (MemoryTracker.new M) evs hU (Nat.zero_le M) hm).1
  · intro t size hgt
    rw [MemoryTracker.tryAllocate]
    simp [hgt]

/-- Witness for `memory_tracker_never_exceeds_limit`: `M = 100` with history
`alloc 60; alloc 50 (rejected); release 10; alloc 50`. -/
theorem memory_tracker_never_exceeds_limit_witness :
    ((MemoryTracker.new 100).run
        [.alloc 60, .alloc 50, .release 10, .alloc 50]).allocated ≤ 100 ∧
    (∀ t : MemoryTracker, ∀ size : Nat,
      t.limit < (t.allocated + size) % U64 →
      t.tryAllocate size
        = (.error (.MemoryExhausted t.allocated size t.limit), t)) :=
  memory_tracker_never_exceeds_limit 100 (by decide)
    [.alloc 60, .alloc 50, .release 10, .alloc 50]
    (by
      simp only [MatchedReleases, MemoryTracker.new, MemoryTracker.tryAllocate,
        MemoryTracker.release, U64]
      norm_num)

/-! ## version.rs -/

/-- `WAL_FORMAT_VERSION` (`u16`) from `src/version.rs`. -/
def WAL_FORMAT_VERSION : Nat := 1

/-- `SCHEMA_FORMAT_VERSION` (`u16`) from `src/version.rs`. -/
def SCHEMA_FORMAT_VERSION : Nat := 1

/-- `VersionMarker` from `src/version.rs` (persisted fields). -/
structure VersionMarker where
  binary_version : String
  wal_format_version : Nat
  schema_format_version : Nat
  created_at : String
  last_accessed_by : Option String
deriving DecidableEq, Repr

/-- `VersionError` from `src/version.rs`. -/
inductive VersionError where
  | WalFormatMismatch (expected found : Nat) (message : String)
  | SchemaFormatMismatch (expected found : Nat) (message : String)
  | DowngradeDetected (data_version binary_version : String)
  | PartialInitialization (message : String)
  | IoError (msg : String)
deriving DecidableEq, Repr

/-- `VersionCheck` from `src/version.rs` (`from`/`to` renamed because `from`
is a Lean keyword). -/
inductive VersionCheck where
  | Compatible
  | NewInstallation
  | UpgradeCompatible (fromVersion toVersion : String)
  | Incompatible (e : VersionError)
deriving DecidableEq, Repr

/-- The `format!` message of the newer-than-binary (downgrade) WAL mismatch
branch of `VersionChecker::check`. -/
def walDowngradeMessage (found expected : Nat) : String :=
  "Data was written with WAL format v" ++ toString found ++
    " but this binary only supports v" ++ toString expected ++
    ". This appears to be a downgrade attempt."

/-- The `format!` message of the older-than-binary (needs migration) WAL
mismatch branch of `VersionChecker::check`. -/
def walMigrateMessage (found expected : Nat) : String :=
  "Data was written with WAL format v" ++ toString found ++
    " but this binary requires v" ++ toString expected ++
    ". Run \x27aerodb migrate\x27 to upgrade the data format."

/-- The `format!` message of `VersionError::PartialInitialization` raised by
`check_initialization_state`. -/
def partialInitMessage : String :=
  "Data files exist but initialization marker \x27.aerodb_initialized\x27 " ++
    "is missing. Previous initialization may have failed or files were " ++
    "tampered with."

/-- The on-disk facts `VersionChecker::check_initialization_state` looks at:
existence of the data directory, of `wal/`, `storage/`, `.aerodb_version`
and `.aerodb_initialized`. -/
structure InitFsState where
  dataDirExists : Bool
  walDirExists : Bool
  storageDirExists : Bool
  versionFileExists : Bool
  initMarkerExists : Bool
deriving DecidableEq, Repr

/-- `VersionChecker::check_initialization_state`. -/
def checkInitializationState (fs : InitFsState) :
    Except VersionError Unit :=
  if !fs.dataDirExists then
    .ok ()
  else
    let hasDataFiles :=
      fs.walDirExists || fs.storageDirExists || fs.versionFileExists
    if hasDataFiles && !fs.initMarkerExists then
      .error (.PartialInitialization partialInitMessage)
    else
      .ok ()

/-- `VersionChecker::check`.  `markerLoad` is the outcome of
`VersionMarker::load` (file absent, parse/io failure, or the parsed marker);
`binaryVersion` is the compiled `BINARY_VERSION`. -/
def VersionChecker.check (fs : InitFsState)
    (markerLoad : Except VersionError (Option VersionMarker))
    (binaryVersion : String) : VersionCheck :=
  match checkInitializationState fs with
  | .error e => .Incompatible e
  | .ok () =>
    match markerLoad with
    | .ok none => .NewInstallation
    | .error e => .Incompatible e
    | .ok (some marker) =>
      if marker.wal_format_version ≠ WAL_FORMAT_VERSION then
        if WAL_FORMAT_VERSION < marker.wal_format_version then
          .Incompatible (.WalFormatMismatch WAL_FORMAT_VERSION
            marker.wal_format_version
            (walDowngradeMessage marker.wal_format_version WAL_FORMAT_VERSION))
        else
          .Incompatible (.WalFormatMismatch WAL_FORMAT_VERSION
            marker.wal_format_version
            (walMigrateMessage marker.wal_format_version WAL_FORMAT_VERSION))
      else if marker.schema_format_version ≠ SCHEMA_FORMAT_VERSION then
        if SCHEMA_FORMAT_VERSION < marker.schema_format_version then
          .Incompatible (.SchemaFormatMismatch SCHEMA_FORMAT_VERSION
            marker.schema_format_version "Downgrade not supported.")
        else
          .Incompatible (.SchemaFormatMismatch SCHEMA_FORMAT_VERSION
            marker.schema_format_version
            "Run \x27aerodb migrate\x27 to upgrade.")
      else if marker.binary_version ≠ binaryVersion then
        .UpgradeCompatible marker.binary_version binaryVersion
      else
        .Compatible

/-- **C8.** When the loaded marker's `wal_format_version` differs from the
compiled `WAL_FORMAT_VERSION` (and the initialization state is sound),
`check` returns `Incompatible` with a `WalFormatMismatch` error; the
newer-than-binary case carries the downgrade message, the older-than-binary
case the migration message, and any error produced by the first case is
distinct from any error produced by the second (their `found` fields differ,
as do their message texts). -/
theorem version_check_wal_mismatch_incompatible (fs : InitFsState)
    (marker : VersionMarker) (bin : String)
    (hinit : checkInitializationState fs = .ok ())
    (hne : marker.wal_format_version ≠ WAL_FORMAT_VERSION) :
    (WAL_FORMAT_VERSION < marker.wal_format_version →
      VersionChecker.check fs (.ok (some marker)) bin
        = .Incompatible (.WalFormatMismatch WAL_FORMAT_VERSION
            marker.wal_format_version
            (walDowngradeMessage marker.wal_format_version
              WAL_FORMAT_VERSION))) ∧
    (marker.wal_format_version < WAL_FORMAT_VERSION →
      VersionChecker.check fs (.ok (some marker)) bin
        = .Incompatible (.WalFormatMismatch WAL_FORMAT_VERSION
            marker.wal_format_version
            (walMigrateMessage marker.wal_format_version
              WAL_FORMAT_VERSION))) ∧
    (∀ m₁ m₂ : VersionMarker, WAL_FORMAT_VERSION < m₁.wal_format_version →
      m₂.wal_format_version < WAL_FORMAT_VERSION →
      VersionError.WalFormatMismatch WAL_FORMAT_VERSION m₁.wal_format_version
          (walDowngradeMessage m₁.wal_format_version WAL_FORMAT_VERSION)
        ≠ VersionError.WalFormatMismatch WAL_FORMAT_VERSION
            m₂.wal_format_version
            (walMigrateMessage m₂.wal_format_version WAL_FORMAT_VERSION)) ∧
    walDowngradeMessage 2 WAL_FORMAT_VERSION
      ≠ walMigrateMessage 0 WAL_FORMAT_VERSION := by
  refine ⟨?_, ?_, ?_, by decide⟩
  · intro hgt
    simp [VersionChecker.check, hinit, hne, hgt]
  · intro hlt
    have hngt : ¬ WAL_FORMAT_VERSION < marker.wal_format_version :=
      not_lt.mpr (Nat.le_of_lt hlt)
    simp [VersionChecker.check, hinit, hne, hngt]
  · intro m₁ m₂ h₁ h₂ heq
    have : m₁.wal_format_version = m₂.wal_format_version := by
      injection heq
    omega

/-- Witness for `version_check_wal_mismatch_incompatible`: a marker with
`wal_format_version = 2` against the compiled version 1, in an initialized
data directory. -/
theorem version_check_wal_mismatch_incompatible_witness :
    VersionChecker.check ⟨true, true, false, true, true⟩
        (.ok (some ⟨"0.9.0", 2, 1, "2026-01-01T00:00:00Z", none⟩)) "1.0.0"
      = .Incompatible (.WalFormatMismatch WAL_FORMAT_VERSION 2
          (walDowngradeMessage 2 WAL_FORMAT_VERSION)) :=
  (version_check_wal_mismatch_incompatible ⟨true, true, false, true, true⟩
      ⟨"0.9.0", 2, 1, "2026-01-01T00:00:00Z", none⟩ "1.0.0"
      rfl (by decide)).1 (by decide)

/-! ## cli/commands.rs — the `init` command

The filesystem is embedded as the list of paths that exist; `Config::load`
success and the data directory path it yields are abstracted into the
`dataDir` argument, and `fs::create_dir_all` is assumed to succeed (the happy
path; no claim depends on its failure behaviour). -/

/-- Modelled from the spec: `CliError` lives in `src/cli/errors.rs`, which is
not in the source tree (only its uses in `src/cli/commands.rs` are).  The
spec's CLI section gives `init` the outcomes already-initialized (exit 2),
invalid config (exit 3), I/O error (exit 4); the in-tree tests additionally
use a not-initialized code. -/
inductive CliError where
  | AlreadyInitialized
  | NotInitialized
  | ConfigError (msg : String)
  | IoError (msg : String)
deriving DecidableEq, Repr

/-- `is_initialized` from `src/cli/commands.rs`: all three skeleton
directories exist. -/
def is_initialized (dataDir : String) (fs : List String) : Bool :=
  decide ((dataDir ++ "/wal") ∈ fs) &&
    decide ((dataDir ++ "/data") ∈ fs) &&
    decide ((dataDir ++ "/metadata/schemas") ∈ fs)

/-- The directory skeleton `init` creates (`wal`, `data`,
`metadata/schemas`). -/
def initDirs (dataDir : String) : List String :=
  [dataDir ++ "/wal", dataDir ++ "/data", dataDir ++ "/metadata/schemas"]

/-- The `init` command from `src/cli/commands.rs`: refuse when
`is_initialized`, otherwise create the three skeleton directories.  No other
path is touched — in particular no `.aerodb_version` or
`.aerodb_initialized` file is written (`VersionChecker::mark_initialized`
has no caller in `src/cli/commands.rs`). -/
def init (dataDir : String) (fs : List String) :
    Except CliError (List String) :=
  if is_initialized dataDir fs then
    .error .AlreadyInitialized
  else
    .ok (fs ++ initDirs dataDir)

lemma string_append_ne (d a b : String) (h : a.data ≠ b.data) :
    d ++ a ≠ d ++ b := by
  intro he
  apply h
  have hd : (d ++ a).data = (d ++ b).data := by rw [he]
  rw [String.data_append, String.data_append] at hd
  exact List.append_cancel_left hd

/-- **C2, counterexample.** In a data directory whose only entry is the init
marker `.aerodb_initialized`, `init` does *not* refuse — it succeeds and
creates the skeleton — and in an empty data directory a successful `init`
creates neither `.aerodb_version` nor `.aerodb_initialized`.  Conversely,
with the three skeleton directories present but no `.aerodb_initialized`,
`init` refuses.  All three contradict the claim that `init` creates both
marker files and refuses exactly when `.aerodb_initialized` exists. -/
theorem init_marker_claim_counterexample :
    init "/d" ["/d/.aerodb_initialized"]
        = .ok ["/d/.aerodb_initialized", "/d/wal", "/d/data",
            "/d/metadata/schemas"] ∧
      init "/d" []
        = .ok ["/d/wal", "/d/data", "/d/metadata/schemas"] ∧
      "/d/.aerodb_version" ∉ ["/d/wal", "/d/data", "/d/metadata/schemas"] ∧
      "/d/.aerodb_initialized"
          ∉ ["/d/wal", "/d/data", "/d/metadata/schemas"] ∧
      init "/d" ["/d/wal", "/d/data", "/d/metadata/schemas"]
        = .error CliError.AlreadyInitialized := by
  refine ⟨?_, ?_, by decide, by decide, ?_⟩ <;>
    simp [init, is_initialized, initDirs]

/-- **C2, amended.** `init` refuses with the already-initialized error
exactly when all three skeleton directories (`wal`, `data`,
`metadata/schemas`) already exist; on success it adds exactly those three
directories and touches nothing else — in particular a path of the form
`<data_dir>/.aerodb_version` or `<data_dir>/.aerodb_initialized` exists
afterwards only if it existed before. -/
theorem init_skeleton_only (dataDir : String) (fs : List String) :
    (init dataDir fs = .error .AlreadyInitialized ↔
      is_initialized dataDir fs = true) ∧
    (∀ fs', init dataDir fs = .ok fs' →
      fs' = fs ++ initDirs dataDir ∧
      ((dataDir ++ "/.aerodb_version") ∈ fs' ↔
        (dataDir ++ "/.aerodb_version") ∈ fs) ∧
      ((dataDir ++ "/.aerodb_initialized") ∈ fs' ↔
        (dataDir ++ "/.aerodb_initialized") ∈ fs)) := by
  have hv : ∀ p, p.data ≠ "/wal".data → p.data ≠ "/data".data →
      p.data ≠ "/metadata/schemas".data →
      ((dataDir ++ p) ∈ initDirs dataDir ↔ False) := by
    intro p h1 h2 h3
    simp only [initDirs, List.mem_cons, List.not_mem_nil, or_false,
      iff_false]
    push_neg
    exact ⟨string_append_ne dataDir p "/wal" h1,
      string_append_ne dataDir p "/data" h2,
      string_append_ne dataDir p "/metadata/schemas" h3⟩
  constructor
  · rw [init]
    split_ifs with h
    · simp [h]
    · simp [h]
  · intro fs' hok
    rw [init] at hok
    split_ifs at hok with h
    have hfs : fs' = fs ++ initDirs dataDir := by
      injection hok with hok
      exact hok.symm
    refine ⟨hfs, ?_, ?_⟩
    · rw [hfs, List.mem_append,
        hv "/.aerodb_version" (by decide) (by decide) (by decide)]
      simp
    · rw [hfs, List.mem_append,
        hv "/.aerodb_initialized" (by decide) (by decide) (by decide)]
      simp

/-- Witness for `init_skeleton_only` at `dataDir = "/srv/db"` over an empty
filesystem. -/
theorem init_skeleton_only_witness :
    (init "/srv/db" [] = .error .AlreadyInitialized ↔
      is_initialized "/srv/db" [] = true) ∧
    (∀ fs', init "/srv/db" [] = .ok fs' →
      fs' = [] ++ initDirs "/srv/db" ∧
      (("/srv/db" ++ "/.aerodb_version") ∈ fs' ↔
        ("/srv/db" ++ "/.aerodb_version") ∈ ([] : List String)) ∧
      (("/srv/db" ++ "/.aerodb_initialized") ∈ fs' ↔
        ("/srv/db" ++ "/.aerodb_initialized") ∈ ([] : List String))) :=
  init_skeleton_only "/srv/db" []

/-! ## backup/mod.rs and backup/manager.rs

`create_backup` performs filesystem effects; the embedding returns, next to
the `BackupResult` value, the ordered trace of filesystem operations the call
performs.  Fallible operations are resolved by a `BackupEnv` oracle saying
which of them succeed.  The `CleanupGuard` constructed right after the temp
directory is created is reflected structurally: the trace of every path
through the guarded body is followed by a final `guardCleanup` entry, exactly
as the Rust guard's `Drop` runs on every exit from the scope. -/

/-- `BackupConfig` from `src/backup/mod.rs`. -/
structure BackupConfig where
  enabled : Bool
  interval_hours : Nat
  max_backups : Nat
  backup_dir : String
deriving DecidableEq, Repr

/-- `BackupMetadata` from `src/backup/mod.rs`. -/
structure BackupMetadata where
  id : String
  created_at : String
  size_bytes : Nat
  description : Option String
deriving DecidableEq, Repr

/-- `BackupError` from `src/backup/errors.rs`, collapsed to its code plus
context message (the source stores a code, a message and an optional
path). -/
inductive BackupError where
  | SnapshotFailed (msg : String)
  | ArchiveFailed (msg : String)
  | NotFound (id : String)
  | RetentionFailed (msg : String)
  | IoError (ctx : String)
  | InvalidConfig (msg : String)
  | DirNotAccessible (path : String)
deriving DecidableEq, Repr

/-- One filesystem operation performed by the backup manager. -/
inductive FsOp where
  | snapshotCreate (dataDir : String)
  | removeDirAll (p : String)
  | createDirAll (p : String)
  | copyDirRecursive (src dst : String)
  | writeManifest (p : String)
  | createTarFile (p : String)
  | appendTarEntries (src dst : String)
  | finishTar (p : String)
  | fsyncFile (p : String)
  | renamePath (src dst : String)
  | fsyncDir (p : String)
  | statFile (p : String)
  | removeFile (p : String)
  | guardCleanup (p : String)
deriving DecidableEq, Repr

/-- Is this operation a rename? -/
def FsOp.isRename : FsOp → Bool
  | .renamePath _ _ => true
  | _ => false

/-- Is this operation a directory fsync? -/
def FsOp.isFsyncDir : FsOp → Bool
  | .fsyncDir _ => true
  | _ => false

/-- Is this operation the cleanup performed by a `CleanupGuard` drop? -/
def FsOp.isGuardCleanup : FsOp → Bool
  | .guardCleanup _ => true
  | _ => false

/-- The paths an operation touches. -/
def FsOp.paths : FsOp → List String
  | .snapshotCreate p => [p]
  | .removeDirAll p => [p]
  | .createDirAll p => [p]
  | .copyDirRecursive a b => [a, b]
  | .writeManifest p => [p]
  | .createTarFile p => [p]
  | .appendTarEntries a b => [a, b]
  | .finishTar p => [p]
  | .fsyncFile p => [p]
  | .renamePath a b => [a, b]
  | .fsyncDir p => [p]
  | .statFile p => [p]
  | .removeFile p => [p]
  | .guardCleanup p => [p]

/-- Does the operation touch a `.partial` path? -/
def FsOp.touchesPartial (op : FsOp) : Bool :=
  op.paths.any (fun p => List.isSuffixOf ".partial".data p.data)

/-- Descending-recency order on backups: `a` is at least as recent as `b`
(the code sorts with `b.created_at.cmp(&a.created_at)`). -/
def backupNewerEq (a b : BackupMetadata) : Prop :=
  b.created_at ≤ a.created_at

instance : DecidableRel backupNewerEq := fun a b =>
  inferInstanceAs (Decidable (b.created_at ≤ a.created_at))

instance : IsTotal BackupMetadata backupNewerEq :=
  ⟨fun a b => le_total b.created_at a.created_at⟩

instance : IsTrans BackupMetadata backupNewerEq :=
  ⟨fun _ _ _ hab hbc => le_trans hbc hab⟩

/-- `BackupManager::list_backups` on a given set of on-disk archives: sort by
`created_at`, newest first (directory iteration order is abstracted away;
the code sorts whatever order `read_dir` yields). -/
def list_backups (store : List BackupMetadata) : List BackupMetadata :=
  List.insertionSort backupNewerEq store

/-- The popping recursion behind `enforce_retention`, phrased structurally on
the oldest-first (reversed) list: delete the first `k` entries in order
(`deleteOk` tells whether `delete_backup` succeeds — on failure the code logs
and continues), counting successful deletions and recording the deleted ids
in deletion order. -/
def retentionLoopAux (deleteOk : String → Bool) :
    Nat → List BackupMetadata → Nat × List String
  | 0, _ => (0, [])
  | _ + 1, [] => (0, [])
  | k + 1, oldest :: rest =>
      let r := retentionLoopAux deleteOk k rest
      if deleteOk oldest.id then (r.1 + 1, oldest.id :: r.2) else r

/-- The `while backups.len() > max_backups` loop of
`BackupManager::enforce_retention`: each iteration pops the oldest (last)
entry of the newest-first list and attempts to delete its archive, so the
loop performs exactly `l.length - maxB` pops — the first `l.length - maxB`
entries of the reversed list, oldest first. -/
def retentionLoop (deleteOk : String → Bool) (maxB : Nat)
    (l : List BackupMetadata) : Nat × List String :=
  retentionLoopAux deleteOk (l.length - maxB) l.reverse

/-- `BackupManager::enforce_retention`: number of deleted backups. -/
def enforce_retention (deleteOk : String → Bool) (maxB : Nat)
    (store : List BackupMetadata) : Nat :=
  let backups := list_backups store
  if backups.length ≤ maxB then 0
  else (retentionLoop deleteOk maxB backups).1

/-- Success/failure oracle for the fallible filesystem steps of
`create_backup`, together with the ambient values the call reads (snapshot
outcome, clock, archive size reported by `fs::metadata`, and the backups the
retention pass sees on disk). -/
structure BackupEnv where
  snapshotResult : Except String String
  createdAt : String
  tempPreexists : Bool
  removeTempOk : Bool
  createTempOk : Bool
  copySnapshotOk : Bool
  walSrcExists : Bool
  copyWalOk : Bool
  createWalDirOk : Bool
  manifestOk : Bool
  tarCreateOk : Bool
  tarAppendOk : Bool
  tarFinishOk : Bool
  fsyncOk : Bool
  archiveSize : Nat
  existingBackups : List BackupMetadata
  retentionListOk : Bool
  deleteOk : String → Bool

/-- `BackupManager::create_tar_archive`: `File::create` the archive, append
the directory tree, `finish`. -/
def create_tar_archive (src dst : String)
    (createOk appendOk finishOk : Bool) :
    Except BackupError Unit × List FsOp :=
  if ¬ createOk then
    (.error (.IoError ("Failed to create archive: " ++ dst)),
      [.createTarFile dst])
  else if ¬ appendOk then
    (.error (.IoError "Failed to add file to archive"),
      [.createTarFile dst, .appendTarEntries src dst])
  else if ¬ finishOk then
    (.error (.IoError "Failed to finish archive"),
      [.createTarFile dst, .appendTarEntries src dst, .finishTar dst])
  else
    (.ok (), [.createTarFile dst, .appendTarEntries src dst, .finishTar dst])

/-- The `remove_file` operations performed by the retention pass invoked at
step 9 of `create_backup` (none when `list_backups` fails there — the error
is logged and dropped). -/
def retentionOps (cfg : BackupConfig) (env : BackupEnv) : List FsOp :=
  if env.retentionListOk then
    ((retentionLoop env.deleteOk cfg.max_backups
        (list_backups env.existingBackups)).2).map
      (fun id => FsOp.removeFile (cfg.backup_dir ++ "/" ++ id ++ ".tar"))
  else
    []

/-- Step 4 of `create_backup`: copy the `wal/` tree into the temp directory
when it exists, otherwise create an empty `wal/` there. -/
def walCopyStep (walSrc walDest : String)
    (srcExists copyOk mkOk : Bool) : Except BackupError Unit × List FsOp :=
  if srcExists then
    if ¬ copyOk then
      (.error (.IoError "Failed to copy file"),
        [FsOp.copyDirRecursive walSrc walDest])
    else
      (.ok (), [FsOp.copyDirRecursive walSrc walDest])
  else
    if ¬ mkOk then
      (.error (.IoError "Failed to create WAL directory"),
        [FsOp.createDirAll walDest])
    else
      (.ok (), [FsOp.createDirAll walDest])

/-- Steps 3–9 of `create_backup` — the region guarded by the
`CleanupGuard` (copy snapshot, copy or create WAL dir, write manifest, tar,
fsync archive, stat, retention).  Early `?` returns surface here as `.error`
results; the guard's drop is appended by the caller. -/
def backupBody (cfg : BackupConfig) (dataDir snapshotId : String)
    (description : Option String) (env : BackupEnv) :
    Except BackupError BackupMetadata × List FsOp :=
  let backupId := "backup_" ++ snapshotId
  let tempDir := cfg.backup_dir ++ "/" ++ backupId ++ ".tmp"
  let archivePath := cfg.backup_dir ++ "/" ++ backupId ++ ".tar"
  let snapshotSrc := dataDir ++ "/snapshots/" ++ snapshotId
  let snapshotDest := tempDir ++ "/snapshot"
  let copySnap := FsOp.copyDirRecursive snapshotSrc snapshotDest
  if ¬ env.copySnapshotOk then
    (.error (.IoError "Failed to copy file"), [copySnap])
  else
    let walSrc := dataDir ++ "/wal"
    let walDest := tempDir ++ "/wal"
    match walCopyStep walSrc walDest env.walSrcExists env.copyWalOk
        env.createWalDirOk with
    | (.error e, ops) => (.error e, copySnap :: ops)
    | (.ok (), ops) =>
      let manifestPath := tempDir ++ "/backup_manifest.json"
      if ¬ env.manifestOk then
        (.error (.IoError "Failed to write backup manifest"),
          copySnap :: ops ++ [FsOp.writeManifest manifestPath])
      else
        let t := copySnap :: ops ++ [FsOp.writeManifest manifestPath]
        match create_tar_archive tempDir archivePath env.tarCreateOk
            env.tarAppendOk env.tarFinishOk with
        | (.error e, tarOps) => (.error e, t ++ tarOps)
        | (.ok (), tarOps) =>
          let t := t ++ tarOps
          if ¬ env.fsyncOk then
            (.error (.IoError ("Failed to fsync file: " ++ archivePath)),
              t ++ [FsOp.fsyncFile archivePath])
          else
            let t := t ++ [FsOp.fsyncFile archivePath, FsOp.statFile archivePath]
              ++ retentionOps cfg env
            (.ok ⟨backupId, env.createdAt, env.archiveSize, description⟩, t)

/-- `BackupManager::create_backup`: snapshot, clean and create the temp
directory, construct the `CleanupGuard`, run the guarded body, and let the
guard remove the temp directory on every exit from the guarded scope. -/
def create_backup (cfg : BackupConfig) (dataDir : String)
    (description : Option String) (env : BackupEnv) :
    Except BackupError BackupMetadata × List FsOp :=
  match env.snapshotResult with
  | .error e =>
      (.error (.SnapshotFailed ("Snapshot creation failed: " ++ e)),
        [.snapshotCreate dataDir])
  | .ok snapshotId =>
    let backupId := "backup_" ++ snapshotId
    let tempDir := cfg.backup_dir ++ "/" ++ backupId ++ ".tmp"
    let t0 : List FsOp := [.snapshotCreate dataDir]
    if env.tempPreexists ∧ ¬ env.removeTempOk then
      (.error (.IoError "Failed to clean existing temp directory"),
        t0 ++ [.removeDirAll tempDir])
    else
      let t1 := t0 ++ if env.tempPreexists then [FsOp.removeDirAll tempDir] else []
      if ¬ env.createTempOk then
        (.error (.IoError "Failed to create temp directory"),
          t1 ++ [.createDirAll tempDir])
      else
        let body := backupBody cfg dataDir snapshotId description env
        (body.1,
          t1 ++ [FsOp.createDirAll tempDir] ++ body.2
            ++ [FsOp.guardCleanup tempDir])

/-- An environment in which every fallible step succeeds: snapshot id
`snap1`, no pre-existing temp directory, a `wal/` tree present, an archive of
42 bytes, and no other archives on disk. -/
def allGoodEnv : BackupEnv :=
  ⟨.ok "snap1", "2026-02-07T12:00:00Z", false, true, true, true, true, true,
    true, true, true, true, true, true, 42, [], true, fun _ => true⟩

/-- **C1, counterexample.** A fully successful `create_backup` over
`backup_dir = "/b"`, `data_dir = "/d"`: the complete filesystem trace shows
the tar being created directly at the final `/b/backup_snap1.tar` path and
fsynced there — no `.tar.partial` file, no rename, and no fsync of the
containing directory occur anywhere in the trace.  Moreover on the exit path
where a pre-existing temp directory fails to be removed, no `CleanupGuard`
removal happens at all. -/
theorem backup_atomicity_counterexample :
    create_backup ⟨true, 24, 3, "/b"⟩ "/d" none allGoodEnv
        = (.ok ⟨"backup_snap1", "2026-02-07T12:00:00Z", 42, none⟩,
          [.snapshotCreate "/d",
            .createDirAll "/b/backup_snap1.tmp",
            .copyDirRecursive "/d/snapshots/snap1" "/b/backup_snap1.tmp/snapshot",
            .copyDirRecursive "/d/wal" "/b/backup_snap1.tmp/wal",
            .writeManifest "/b/backup_snap1.tmp/backup_manifest.json",
            .createTarFile "/b/backup_snap1.tar",
            .appendTarEntries "/b/backup_snap1.tmp" "/b/backup_snap1.tar",
            .finishTar "/b/backup_snap1.tar",
            .fsyncFile "/b/backup_snap1.tar",
            .statFile "/b/backup_snap1.tar",
            .guardCleanup "/b/backup_snap1.tmp"]) ∧
    ((create_backup ⟨true, 24, 3, "/b"⟩ "/d" none allGoodEnv).2).all
        (fun op => !op.isRename && !op.isFsyncDir && !op.touchesPartial)
      = true ∧
    ((create_backup ⟨true, 24, 3, "/b"⟩ "/d" none
        { allGoodEnv with tempPreexists := true, removeTempOk := false }).2).all
        (fun op => !op.isGuardCleanup)
      = true := by
  refine ⟨rfl, by decide, by decide⟩

lemma walCopyStep_ops (walSrc walDest : String) (e c m : Bool) :
    ∀ op ∈ (walCopyStep walSrc walDest e c m).2,
      op = FsOp.copyDirRecursive walSrc walDest ∨
        op = FsOp.createDirAll walDest := by
  intro op hop
  rw [walCopyStep] at hop
  split_ifs at hop <;> simp_all

lemma create_tar_archive_ops (src dst : String) (c a f : Bool) :
    ∀ op ∈ (create_tar_archive src dst c a f).2,
      op = FsOp.createTarFile dst ∨ op = FsOp.appendTarEntries src dst ∨
        op = FsOp.finishTar dst := by
  intro op hop
  rw [create_tar_archive] at hop
  split_ifs at hop <;>
    simp only [List.mem_cons, List.mem_singleton, List.not_mem_nil,
      or_false] at hop <;>
    tauto

lemma retentionOps_shape (cfg : BackupConfig) (env : BackupEnv) :
    ∀ op ∈ retentionOps cfg env, ∃ p, op = FsOp.removeFile p := by
  intro op hop
  rw [retentionOps] at hop
  split_ifs at hop
  · rw [List.mem_map] at hop
    obtain ⟨id, _, hid⟩ := hop
    exact ⟨_, hid.symm⟩
  · simp at hop

/-- The predicate of the amended C1 statement: not a rename, not a directory
fsync, and any tar creation or file fsync targets exactly `archivePath`. -/
def directTarShape (archivePath : String) (op : FsOp) : Prop :=
  op.isRename = false ∧ op.isFsyncDir = false ∧
    (∀ p, op = FsOp.createTarFile p → p = archivePath) ∧
    (∀ p, op = FsOp.fsyncFile p → p = archivePath)

lemma directTarShape_of_not_tar_not_fsync (archivePath : String) (op : FsOp)
    (h1 : op.isRename = false) (h2 : op.isFsyncDir = false)
    (h3 : ∀ p, op ≠ FsOp.createTarFile p) (h4 : ∀ p, op ≠ FsOp.fsyncFile p) :
    directTarShape archivePath op :=
  ⟨h1, h2, fun p hp => absurd hp (h3 p), fun p hp => absurd hp (h4 p)⟩

/-- Is this operation a tar-file creation? -/
def FsOp.isCreateTar : FsOp → Bool
  | .createTarFile _ => true
  | _ => false

/-- Is this operation a file fsync? -/
def FsOp.isFsyncFile : FsOp → Bool
  | .fsyncFile _ => true
  | _ => false

lemma directTarShape_of_flags (archive : String) (op : FsOp)
    (h1 : op.isRename = false) (h2 : op.isFsyncDir = false)
    (h3 : op.isCreateTar = false) (h4 : op.isFsyncFile = false) :
    directTarShape archive op := by
  refine ⟨h1, h2, ?_, ?_⟩
  · intro p hp
    subst hp
    simp [FsOp.isCreateTar] at h3
  · intro p hp
    subst hp
    simp [FsOp.isFsyncFile] at h4

lemma directTarShape_createTarFile (archive : String) :
    directTarShape archive (FsOp.createTarFile archive) :=
  ⟨rfl, rfl, fun _ hp => (FsOp.createTarFile.inj hp).symm,
    fun _ hp => FsOp.noConfusion hp⟩

lemma directTarShape_fsyncFile (archive : String) :
    directTarShape archive (FsOp.fsyncFile archive) :=
  ⟨rfl, rfl, fun _ hp => FsOp.noConfusion hp,
    fun _ hp => (FsOp.fsyncFile.inj hp).symm⟩

set_option maxHeartbeats 1600000 in
lemma backupBody_ops (cfg : BackupConfig) (dataDir sid : String)
    (desc : Option String) (env : BackupEnv) :
    ∀ op ∈ (backupBody cfg dataDir sid desc env).2,
      directTarShape (cfg.backup_dir ++ "/" ++ ("backup_" ++ sid) ++ ".tar")
        op := by
  intro op hop
  obtain ⟨sres, cat, tpe, rok, cok, csok, wse, cwok, cwdok, mok, t1, t2, t3,
    fok, asz, ebk, rlok, dok⟩ := env
  cases csok <;> cases wse <;> cases cwok <;> cases cwdok <;> cases mok <;>
    cases t1 <;> cases t2 <;> cases t3 <;> cases fok
  all_goals
    simp only [backupBody, walCopyStep, create_tar_archive,
      Bool.false_eq_true, Bool.true_eq_false, not_false_eq_true,
      not_true_eq_false, if_true, if_false, List.mem_cons, List.mem_append,
      List.mem_singleton, List.mem_map, List.not_mem_nil, or_false,
      ite_true, ite_false] at hop
    repeat' (rcases hop with hop | hop)
    all_goals first
      | (obtain ⟨p, rfl⟩ := retentionOps_shape _ _ op hop; exact directTarShape_of_flags _ _ rfl rfl rfl rfl)
      | exact directTarShape_createTarFile _
      | exact directTarShape_fsyncFile _
      | exact directTarShape_of_flags _ _ rfl rfl rfl rfl


set_option maxHeartbeats 1600000 in
lemma backupBody_ok (cfg : BackupConfig) (dataDir sid : String)
    (desc : Option String) (env : BackupEnv) (m : BackupMetadata)
    (h : (backupBody cfg dataDir sid desc env).1 = .ok m) :
    m = ⟨"backup_" ++ sid, env.createdAt, env.archiveSize, desc⟩ ∧
    FsOp.createTarFile (cfg.backup_dir ++ "/" ++ ("backup_" ++ sid) ++ ".tar")
        ∈ (backupBody cfg dataDir sid desc env).2 ∧
    FsOp.fsyncFile (cfg.backup_dir ++ "/" ++ ("backup_" ++ sid) ++ ".tar")
        ∈ (backupBody cfg dataDir sid desc env).2 := by
  obtain ⟨sres, cat, tpe, rok, cok, csok, wse, cwok, cwdok, mok, t1, t2, t3,
    fok, asz, ebk, rlok, dok⟩ := env
  cases csok <;> cases wse <;> cases cwok <;> cases cwdok <;> cases mok <;>
    cases t1 <;> cases t2 <;> cases t3 <;> cases fok
  all_goals
    simp only [backupBody, walCopyStep, create_tar_archive,
      Bool.false_eq_true, Bool.true_eq_false, not_false_eq_true,
      not_true_eq_false, if_true, if_false, ite_true, ite_false,
      Except.ok.injEq, reduceCtorEq, List.mem_cons, List.mem_append,
      List.mem_singleton, List.not_mem_nil, or_false, or_true, true_or,
      FsOp.createTarFile.injEq, FsOp.fsyncFile.injEq, and_true,
      true_and] at h ⊢
  all_goals
    subst h
    simp

lemma backupBody_fst_retention (cfg : BackupConfig) (dataDir sid : String)
    (desc : Option String) (env : BackupEnv) (bs : List BackupMetadata)
    (lok : Bool) (dok : String → Bool) :
    (backupBody cfg dataDir sid desc
        { env with existingBackups := bs, retentionListOk := lok, deleteOk := dok }).1
      = (backupBody cfg dataDir sid desc env).1 := by
  obtain ⟨sres, cat, tpe, rok, cok, csok, wse, cwok, cwdok, mok, t1, t2, t3,
    fok, asz, ebk, rlok, dok0⟩ := env
  cases csok <;> cases wse <;> cases cwok <;> cases cwdok <;> cases mok <;>
    cases t1 <;> cases t2 <;> cases t3 <;> cases fok <;> rfl


lemma getLast?_append_singleton {α : Type} (l : List α) (a : α) :
    (l ++ [a]).getLast? = some a :=
  List.getLast?_append_cons l a []

set_option maxHeartbeats 800000 in
/-- **C1, amended.** Whenever the snapshot step yields id `sid` and the temp
directory is created (so the `CleanupGuard` is constructed), `create_backup`
behaves as: the archive contents are assembled in the `.tmp` directory, the
tar is created directly at the final `.tar` path and fsynced there (no
rename, no directory fsync, every tar creation and file fsync targets the
final path), the last filesystem action on every such path — success or
error — is the guard's removal of the `.tmp` directory, and a success
returns the metadata of the archive written at the `.tar` path. -/
theorem backup_tmp_build_direct_tar (cfg : BackupConfig) (dataDir : String)
    (desc : Option String) (env : BackupEnv) (sid : String)
    (hsnap : env.snapshotResult = .ok sid)
    (hrm : env.tempPreexists = true → env.removeTempOk = true)
    (hmk : env.createTempOk = true) :
    ((create_backup cfg dataDir desc env).2).getLast?
        = some (FsOp.guardCleanup
            (cfg.backup_dir ++ "/" ++ ("backup_" ++ sid) ++ ".tmp")) ∧
    (∀ op ∈ (create_backup cfg dataDir desc env).2,
      directTarShape (cfg.backup_dir ++ "/" ++ ("backup_" ++ sid) ++ ".tar")
        op) ∧
    (∀ m, (create_backup cfg dataDir desc env).1 = .ok m →
      m = ⟨"backup_" ++ sid, env.createdAt, env.archiveSize, desc⟩ ∧
      FsOp.createTarFile
          (cfg.backup_dir ++ "/" ++ ("backup_" ++ sid) ++ ".tar")
        ∈ (create_backup cfg dataDir desc env).2 ∧
      FsOp.fsyncFile (cfg.backup_dir ++ "/" ++ ("backup_" ++ sid) ++ ".tar")
        ∈ (create_backup cfg dataDir desc env).2) := by
  have hcond : ¬ (env.tempPreexists = true ∧ ¬ env.removeTempOk = true) := by
    rintro ⟨h1, h2⟩
    exact h2 (hrm h1)
  have hform : create_backup cfg dataDir desc env
      = ((backupBody cfg dataDir sid desc env).1,
        ([FsOp.snapshotCreate dataDir]
            ++ if env.tempPreexists = true then
              [FsOp.removeDirAll
                (cfg.backup_dir ++ "/" ++ ("backup_" ++ sid) ++ ".tmp")]
            else [])
          ++ [FsOp.createDirAll
              (cfg.backup_dir ++ "/" ++ ("backup_" ++ sid) ++ ".tmp")]
          ++ (backupBody cfg dataDir sid desc env).2
          ++ [FsOp.guardCleanup
              (cfg.backup_dir ++ "/" ++ ("backup_" ++ sid) ++ ".tmp")]) := by
    simp only [create_backup, hsnap]
    rw [if_neg hcond, if_neg (not_not_intro hmk)]
  refine ⟨?_, ?_, ?_⟩
  · rw [hform]
    exact getLast?_append_singleton _ _
  · intro op hop
    rw [hform] at hop
    by_cases htpe : env.tempPreexists = true
    · rw [if_pos htpe] at hop
      simp only [List.mem_append, List.mem_cons, List.mem_singleton,
        List.not_mem_nil, or_false] at hop
      repeat' (rcases hop with hop | hop)
      all_goals first
        | exact backupBody_ops cfg dataDir sid desc env op hop
        | exact directTarShape_of_flags _ _ rfl rfl rfl rfl
    · rw [if_neg htpe] at hop
      simp only [List.mem_append, List.mem_cons, List.mem_singleton,
        List.not_mem_nil, or_false, List.append_nil] at hop
      repeat' (rcases hop with hop | hop)
      all_goals first
        | exact backupBody_ops cfg dataDir sid desc env op hop
        | exact directTarShape_of_flags _ _ rfl rfl rfl rfl
  · intro m hm
    rw [hform] at hm
    have hm' : (backupBody cfg dataDir sid desc env).1 = .ok m := hm
    obtain ⟨h1, h2, h3⟩ := backupBody_ok cfg dataDir sid desc env m hm'
    rw [hform]
    exact ⟨h1, List.mem_append_left _ (List.mem_append_right _ h2),
      List.mem_append_left _ (List.mem_append_right _ h3)⟩

/-- Witness for `backup_tmp_build_direct_tar` in the all-success
environment. -/
theorem backup_tmp_build_direct_tar_witness :
    ((create_backup ⟨true, 24, 3, "/b"⟩ "/d" none allGoodEnv).2).getLast?
        = some (FsOp.guardCleanup ("/b" ++ "/" ++ ("backup_" ++ "snap1") ++ ".tmp")) ∧
    (∀ op ∈ (create_backup ⟨true, 24, 3, "/b"⟩ "/d" none allGoodEnv).2,
      directTarShape ("/b" ++ "/" ++ ("backup_" ++ "snap1") ++ ".tar") op) ∧
    (∀ m, (create_backup ⟨true, 24, 3, "/b"⟩ "/d" none allGoodEnv).1 = .ok m →
      m = ⟨"backup_" ++ "snap1", allGoodEnv.createdAt, allGoodEnv.archiveSize,
        none⟩ ∧
      FsOp.createTarFile ("/b" ++ "/" ++ ("backup_" ++ "snap1") ++ ".tar")
        ∈ (create_backup ⟨true, 24, 3, "/b"⟩ "/d" none allGoodEnv).2 ∧
      FsOp.fsyncFile ("/b" ++ "/" ++ ("backup_" ++ "snap1") ++ ".tar")
        ∈ (create_backup ⟨true, 24, 3, "/b"⟩ "/d" none allGoodEnv).2) :=
  backup_tmp_build_direct_tar ⟨true, 24, 3, "/b"⟩ "/d" none allGoodEnv "snap1"
    rfl (by decide) rfl

lemma retentionLoopAux_all_ok (deleteOk : String → Bool)
    (hok : ∀ id, deleteOk id = true) :
    ∀ (n : Nat) (l : List BackupMetadata), n ≤ l.length →
      retentionLoopAux deleteOk n l
        = (n, (l.take n).map BackupMetadata.id) := by
  intro n
  induction n with
  | zero =>
      intro l _
      simp [retentionLoopAux]
  | succ k ih =>
      intro l hl
      cases l with
      | nil => simp at hl
      | cons a rest =>
          have hk : k ≤ rest.length := by simpa using hl
          simp [retentionLoopAux, ih rest hk, hok a.id]

lemma retentionLoop_all_ok (deleteOk : String → Bool) (maxB : Nat)
    (l : List BackupMetadata) (hok : ∀ id, deleteOk id = true) :
    retentionLoop deleteOk maxB l
      = (l.length - maxB, ((l.drop maxB).reverse).map BackupMetadata.id) := by
  rw [retentionLoop, retentionLoopAux_all_ok deleteOk hok (l.length - maxB)
      l.reverse (by simp)]
  have h3 : l.reverse.take (l.length - maxB) = (l.drop maxB).reverse := by
    have h1 : l.reverse
        = (l.drop maxB).reverse ++ (l.take maxB).reverse := by
      rw [← List.reverse_append, List.take_append_drop]
    have h2 : (l.drop maxB).reverse.length = l.length - maxB := by
      simp
    rw [h1, ← h2, List.take_left]
  rw [h3]

lemma create_backup_fst_retention (cfg : BackupConfig) (dataDir : String)
    (desc : Option String) (env : BackupEnv) (bs : List BackupMetadata)
    (lok : Bool) (dok : String → Bool) :
    (create_backup cfg dataDir desc
        { env with existingBackups := bs, retentionListOk := lok, deleteOk := dok }).1
      = (create_backup cfg dataDir desc env).1 := by
  obtain ⟨sres, cat, tpe, rok, cok, csok, wse, cwok, cwdok, mok, t1, t2, t3,
    fok, asz, ebk, rlok, dok0⟩ := env
  cases sres with
  | error e => rfl
  | ok s =>
      cases tpe <;> cases rok <;> cases cok <;>
        first
          | rfl
          | exact backupBody_fst_retention cfg dataDir s desc _ bs lok dok

/-- **C7.** `list_backups` yields the archives sorted by `created_at`
descending (a permutation of those on disk); when deletions succeed, the
retention pass deletes exactly the archives beyond the `max_backups` newest
— those with the oldest `created_at` values, in oldest-first order — so at
most `max_backups` remain and none of the `max_backups` newest is deleted;
`enforce_retention` reports `length - max_backups` deletions; and
`create_backup`'s reported outcome is independent of everything the
retention pass sees or does, so a retention failure never turns a completed
backup into an error. -/
theorem backup_retention_policy (store : List BackupMetadata) (maxB : Nat)
    (deleteOk : String → Bool)
    (hnd : (store.map BackupMetadata.id).Nodup)
    (hok : ∀ id, deleteOk id = true) :
    List.Sorted backupNewerEq (list_backups store) ∧
    (list_backups store).Perm store ∧
    (retentionLoop deleteOk maxB (list_backups store)).2
        = (((list_backups store).drop maxB).reverse).map BackupMetadata.id ∧
    enforce_retention deleteOk maxB store
        = (list_backups store).length - maxB ∧
    ((list_backups store).take maxB).length ≤ maxB ∧
    (∀ b ∈ (list_backups store).take maxB,
      b.id ∉ (retentionLoop deleteOk maxB (list_backups store)).2) ∧
    (∀ (cfg : BackupConfig) (dataDir : String) (desc : Option String)
        (env : BackupEnv) (bs : List BackupMetadata) (lok : Bool)
        (dok : String → Bool),
      (create_backup cfg dataDir desc
          { env with existingBackups := bs, retentionListOk := lok, deleteOk := dok }).1
        = (create_backup cfg dataDir desc env).1) := by
  have hsorted := List.sorted_insertionSort backupNewerEq store
  have hperm := List.perm_insertionSort backupNewerEq store
  have hloop := retentionLoop_all_ok deleteOk maxB (list_backups store) hok
  refine ⟨hsorted, hperm, by rw [hloop], ?_, ?_, ?_, ?_⟩
  · rw [enforce_retention]
    split_ifs with h
    · omega
    · rw [hloop]
  · simp only [List.length_take]
    exact Nat.min_le_left _ _
  · intro b hb hbmem
    rw [hloop] at hbmem
    simp only [List.map_reverse, List.mem_reverse] at hbmem
    have hnd2 : ((list_backups store).map BackupMetadata.id).Nodup :=
      ((hperm.map BackupMetadata.id).nodup_iff).mpr hnd
    have hsplit : (list_backups store).map BackupMetadata.id
        = ((list_backups store).take maxB).map BackupMetadata.id
          ++ ((list_backups store).drop maxB).map BackupMetadata.id := by
      rw [← List.map_append, List.take_append_drop]
    rw [hsplit] at hnd2
    exact (List.nodup_append.mp hnd2).2.2 (List.mem_map_of_mem _ hb) hbmem
  · intro cfg dataDir desc env bs lok dok
    exact create_backup_fst_retention cfg dataDir desc env bs lok dok

/-- Witness for `backup_retention_policy`: three archives (created 2026-01-03,
2026-01-01, 2026-01-02) under `max_backups = 1`. -/
theorem backup_retention_policy_witness :
    List.Sorted backupNewerEq (list_backups
        [⟨"b3", "2026-01-03T00:00:00Z", 1, none⟩,
          ⟨"b1", "2026-01-01T00:00:00Z", 1, none⟩,
          ⟨"b2", "2026-01-02T00:00:00Z", 1, none⟩]) ∧
    (list_backups
        [⟨"b3", "2026-01-03T00:00:00Z", 1, none⟩,
          ⟨"b1", "2026-01-01T00:00:00Z", 1, none⟩,
          ⟨"b2", "2026-01-02T00:00:00Z", 1, none⟩]).Perm
      [⟨"b3", "2026-01-03T00:00:00Z", 1, none⟩,
        ⟨"b1", "2026-01-01T00:00:00Z", 1, none⟩,
        ⟨"b2", "2026-01-02T00:00:00Z", 1, none⟩] ∧
    (retentionLoop (fun _ => true) 1 (list_backups
        [⟨"b3", "2026-01-03T00:00:00Z", 1, none⟩,
          ⟨"b1", "2026-01-01T00:00:00Z", 1, none⟩,
          ⟨"b2", "2026-01-02T00:00:00Z", 1, none⟩])).2
        = (((list_backups
            [⟨"b3", "2026-01-03T00:00:00Z", 1, none⟩,
              ⟨"b1", "2026-01-01T00:00:00Z", 1, none⟩,
              ⟨"b2", "2026-01-02T00:00:00Z", 1, none⟩]).drop 1).reverse).map
          BackupMetadata.id ∧
    enforce_retention (fun _ => true) 1
        [⟨"b3", "2026-01-03T00:00:00Z", 1, none⟩,
          ⟨"b1", "2026-01-01T00:00:00Z", 1, none⟩,
          ⟨"b2", "2026-01-02T00:00:00Z", 1, none⟩]
        = (list_backups
            [⟨"b3", "2026-01-03T00:00:00Z", 1, none⟩,
              ⟨"b1", "2026-01-01T00:00:00Z", 1, none⟩,
              ⟨"b2", "2026-01-02T00:00:00Z", 1, none⟩]).length - 1 ∧
    ((list_backups
        [⟨"b3", "2026-01-03T00:00:00Z", 1, none⟩,
          ⟨"b1", "2026-01-01T00:00:00Z", 1, none⟩,
          ⟨"b2", "2026-01-02T00:00:00Z", 1, none⟩]).take 1).length ≤ 1 ∧
    (∀ b ∈ (list_backups
        [⟨"b3", "2026-01-03T00:00:00Z", 1, none⟩,
          ⟨"b1", "2026-01-01T00:00:00Z", 1, none⟩,
          ⟨"b2", "2026-01-02T00:00:00Z", 1, none⟩]).take 1,
      b.id ∉ (retentionLoop (fun _ => true) 1 (list_backups
          [⟨"b3", "2026-01-03T00:00:00Z", 1, none⟩,
            ⟨"b1", "2026-01-01T00:00:00Z", 1, none⟩,
            ⟨"b2", "2026-01-02T00:00:00Z", 1, none⟩])).2) ∧
    (∀ (cfg : BackupConfig) (dataDir : String) (desc : Option String)
        (env : BackupEnv) (bs : List BackupMetadata) (lok : Bool)
        (dok : String → Bool),
      (create_backup cfg dataDir desc
          { env with existingBackups := bs, retentionListOk := lok, deleteOk := dok }).1
        = (create_backup cfg dataDir desc env).1) :=
  backup_retention_policy
    [⟨"b3", "2026-01-03T00:00:00Z", 1, none⟩,
      ⟨"b1", "2026-01-01T00:00:00Z", 1, none⟩,
      ⟨"b2", "2026-01-02T00:00:00Z", 1, none⟩]
    1 (fun _ => true) (by decide) (fun _ => rfl)

end AeroDB
